import Mathlib

/-!
Verification development for the softlight-ui-state-agent repository.

The Python sources (`agent.py`, `browser.py`, `config.py`) are shallowly
embedded below.  Pure string heuristics become Lean functions over a
`PageSnapshot`; the main workflow loop of `agent.py` becomes an explicit
state machine (`runStep` / `runFrom`) driven by an environment oracle that
supplies, per iteration, the DOM snapshot, the planner outcome and flags
saying which externally-performed operations (screenshots, browser calls,
the settle wait, the planner API call) raise an exception at that point.
The strategy chains of `browser.py` become explicit ordered attempt lists.

Python `str.lower` / `str.strip` are modelled character-wise
(`pyLower` / `pyStrip`), and the Python substring test `needle in hay`
becomes `substrB`.
-/

/-! ## String helpers (model of Python string primitives) -/

/-- Model of Python `needle in hay` on lists of characters. -/
def auxSub (n : List Char) : List Char → Bool
  | [] => n.isEmpty
  | c :: t => n.isPrefixOf (c :: t) || auxSub n t

/-- Model of Python `needle in hay` (substring containment). -/
def substrB (needle hay : String) : Bool :=
  auxSub needle.toList hay.toList

/-- Model of Python `str.lower()` (character-wise lowering). -/
def pyLower (s : String) : String :=
  String.mk (s.toList.map Char.toLower)

/-- Whitespace test used by the model of Python `str.strip()`. -/
def wspC (c : Char) : Bool := c.isWhitespace

/-- Model of Python `str.strip()` on lists of characters. -/
def trimL (l : List Char) : List Char :=
  ((l.dropWhile wspC).reverse.dropWhile wspC).reverse

/-- Model of Python `str.strip()`. -/
def pyStrip (s : String) : String :=
  String.mk (trimL s.toList)

/-- Model of Python truthiness of an optional string (`None` and `""` are falsy). -/
def pyTruthy : Option String → Bool
  | none => false
  | some s => decide (s ≠ (""))

/-- Model of Python `x or d` for an optional integer (`None` and `0` are falsy). -/
def pyOrNat : Option Nat → Nat → Nat
  | some n, d => if n = 0 then d else n
  | none, d => d

/-! ## Data model (agent.py) -/

/-- Page snapshot handed to the heuristics: `url` and `visible_text`
(the `html` field of `get_dom_snapshot` is never consulted by the core). -/
structure PageSnapshot where
  url : String
  visible_text : String
deriving DecidableEq

/-- The `AgentAction` dataclass of agent.py. -/
structure AgentAction where
  action_type : String
  selector : Option String := none
  text : Option String := none
  wait_ms : Option Nat := none
  screenshot_before : Bool := true
  screenshot_after : Bool := true
  reason : String := ("")
deriving DecidableEq

/-- The JSON payload parsed from the raw planner output: each key of the
dictionary may be present or absent (`data.get`). -/
structure PlannerPayload where
  action_type : Option String := none
  selector : Option String := none
  text : Option String := none
  wait_ms : Option Nat := none
  screenshot_before : Option Bool := none
  screenshot_after : Option Bool := none
  reason : Option String := none
deriving DecidableEq

/-- The fallback dictionary `{"action_type": "done"}` substituted by
`decide_next_action` when `json.loads` fails. -/
def fallback_payload : PlannerPayload :=
  { action_type := some ("done") }

/-- The `AgentAction(...)` construction at the end of
`LLMAgent.decide_next_action` (agent.py lines 137-145): each field read with
`data.get(..., default)`. -/
def buildAction (d : PlannerPayload) : AgentAction :=
  { action_type := d.action_type.getD ("done")
    selector := d.selector
    text := d.text
    wait_ms := d.wait_ms
    screenshot_before := d.screenshot_before.getD true
    screenshot_after := d.screenshot_after.getD true
    reason := d.reason.getD ("") }

/-- The parsing tail of `LLMAgent.decide_next_action` (agent.py lines
131-145): `parsed = none` models a `json.loads` failure, in which case the
fallback dictionary is used; otherwise the parsed payload is used as is. -/
def decide_next_action (parsed : Option PlannerPayload) : AgentAction :=
  buildAction (parsed.getD fallback_payload)

/-! ## Guardrail heuristics (agent.py lines 154-228) -/

/-- The `login_markers` list of `looks_like_login_or_oauth`. -/
def login_markers : List String :=
  [("sign in"), ("sign up"), ("log in"), ("log into"),
   ("continue with google"), ("continue with microsoft"),
   ("password"), ("2-step verification")]

/-- Count of login marker phrases found in the (already lowered) page text:
`sum(1 for m in login_markers if m in text)`. -/
def loginMarkerHits (textLow : String) : Nat :=
  login_markers.countP (fun m => substrB m textLow)

/-- Function `looks_like_login_or_oauth` (agent.py lines 154-178). -/
def looks_like_login_or_oauth (dom : PageSnapshot) : Bool :=
  if substrB ("accounts.google.com") (pyLower dom.url) then true
  else if substrB ("github.com/login") (pyLower dom.url) then true
  else decide (2 ≤ loginMarkerHits (pyLower dom.visible_text))

/-- Function `looks_like_github_repo_page` (agent.py lines 181-202). -/
def looks_like_github_repo_page (dom : PageSnapshot) (task_description : String) : Bool :=
  if !(substrB ("github.com") (pyLower dom.url)) then false
  else if substrB ("/new") (pyLower dom.url) then false
  else if substrB ("create a new repository") (pyLower dom.visible_text) then false
  else if substrB ("create") (pyLower task_description)
          && (substrB ("repo") (pyLower task_description)
              || substrB ("repository") (pyLower task_description)
              || substrB ("project") (pyLower task_description)) then true
  else false

/-- Function `looks_like_github_issue_page` (agent.py lines 205-228). -/
def looks_like_github_issue_page (dom : PageSnapshot) (task_description : String) : Bool :=
  if !(substrB ("github.com") (pyLower dom.url)) then false
  else if !(substrB ("/issues/") (pyLower dom.url)) then false
  else if substrB ("/issues/new") (pyLower dom.url) then false
  else if substrB ("new issue") (pyLower dom.visible_text)
          && substrB ("submit new issue") (pyLower dom.visible_text) then false
  else if substrB ("issue") (pyLower task_description)
          || substrB ("bug") (pyLower task_description) then true
  else false

/-! ## ElementResolver model (browser.py) -/

/-- A clickable-looking DOM element as seen by the manual best-match scan of
`BrowserController.click` (browser.py lines 111-143).  `errs` models the
per-element `try` body raising (`is_visible()` / `inner_text()`), which the
scan swallows with `continue`. -/
structure Elem where
  visible : Bool
  errs : Bool := false
  text : String
deriving DecidableEq

/-- The score that the (stripped, lowered) text of an element gets against the
(lowered) label: 3 for equality, 2 for substring containment, else 0. -/
def scoreOf (labelLow tLow : String) : Nat :=
  if tLow = labelLow then 3 else if substrB labelLow tLow then 2 else 0

/-- The scan loop of `BrowserController.click` strategy 4: iterate the
candidates keeping the best element and best score, updating only on a
strictly greater score (ties keep the first-seen candidate). -/
def scanLoop (labelLow : String) : Option Elem → Nat → List Elem → Option Elem
  | best, _, [] => best
  | best, bestScore, e :: rest =>
    if e.errs then scanLoop labelLow best bestScore rest
    else if !e.visible then scanLoop labelLow best bestScore rest
    else if pyStrip e.text = ("") then scanLoop labelLow best bestScore rest
    else if bestScore < scoreOf labelLow (pyLower (pyStrip e.text)) then
      scanLoop labelLow (some e) (scoreOf labelLow (pyLower (pyStrip e.text))) rest
    else scanLoop labelLow best bestScore rest

/-- The manual best-match scan (browser.py lines 111-141): the element that
ends up clicked (`best_el`), or `none` when no candidate scores above 0. -/
def manualBestMatch (label : String) (cands : List Elem) : Option Elem :=
  scanLoop (pyLower label) none 0 cands

/-- Spec-side predicate: the element is visible, error-free, has non-empty
stripped text, and that text equals the (lowered) label exactly. -/
def exactLowB (labelLow : String) (e : Elem) : Bool :=
  !e.errs && e.visible && decide (pyStrip e.text ≠ (""))
    && decide (pyLower (pyStrip e.text) = labelLow)

/-- Spec-side predicate: the element is visible, error-free, has non-empty
stripped text, and that text contains the (lowered) label as a substring. -/
def subLowB (labelLow : String) (e : Elem) : Bool :=
  !e.errs && e.visible && decide (pyStrip e.text ≠ (""))
    && substrB labelLow (pyLower (pyStrip e.text))

/-- The description of the scan given by the claim, taken from the spec: the
first exact match if one exists, otherwise the first substring match in DOM
order. -/
def firstExactElseSub (label : String) (cands : List Elem) : Option Elem :=
  match cands.find? (exactLowB (pyLower label)) with
  | some e => some e
  | none => cands.find? (subLowB (pyLower label))

/-! ## Click / fill strategy chains (browser.py) -/

/-- The structural-selector-like characters checked by `click` and `fill`:
`("#", ".", "[", ">", ":")`. -/
def structChars : String := ("#.[>:")

/-- Test whether any structural-selector character occurs in the label. -/
def hasStructChar (s : String) : Bool :=
  s.toList.any (fun c => structChars.toList.contains c)

/-- The strategies of `BrowserController.click`, in source order. -/
inductive ClickStrat
  | structural
  | roleStrat (role : String)
  | textStrat
  | manualScan
  | firstVisible
deriving DecidableEq

/-- The ordered list of click strategies that `BrowserController.click`
(browser.py lines 76-161) is prepared to attempt for a given selector:
structural CSS (guarded on the label containing a structural character),
then the role cascade, then visible text (guarded on a non-empty label),
then the manual scan, then the first-visible fallback. -/
def clickChain (selector : String) : List ClickStrat :=
  (if decide (pyStrip selector ≠ ("")) && hasStructChar (pyStrip selector)
   then [ClickStrat.structural] else [])
  ++ [ClickStrat.roleStrat ("button"), ClickStrat.roleStrat ("link"),
      ClickStrat.roleStrat ("tab")]
  ++ (if decide (pyStrip selector ≠ ("")) then [ClickStrat.textStrat] else [])
  ++ [ClickStrat.manualScan, ClickStrat.firstVisible]

/-- The strategies of `BrowserController.fill`, in source order. -/
inductive FillStrat
  | githubRepoCss (css : String)
  | githubIssueCss (css : String)
  | structural
  | placeholderStrat
  | textboxRole (nm : String)
  | genericInput
  | focusedType
deriving DecidableEq

/-- The `textbox_names` fallback list of `BrowserController.fill`. -/
def textbox_names (label : String) : List String :=
  [label, ("Search"), ("Search GitHub"),
   ("Search or jump to…"), ("Search or jump to...")]

/-- The GitHub site-template hooks consulted by `BrowserController.fill`
before any generic strategy: the new-repo hook (browser.py lines 266-274,
guarded on URL and body markers) then the new-issue hook (lines 277-285,
guarded on URL markers). -/
def fillHookPart (page_url body_text : String) : List FillStrat :=
  (if substrB ("github.com") (pyLower page_url) && substrB ("/new") (pyLower page_url)
      && substrB ("create a new repository") (pyLower body_text)
   then [FillStrat.githubRepoCss ("input[name=\x27repository[name]\x27]"),
         FillStrat.githubRepoCss ("#repository_name")] else [])
  ++ (if substrB ("github.com") (pyLower page_url) && substrB ("/issues/new") (pyLower page_url)
      then [FillStrat.githubIssueCss ("input[name=\x27issue[title]\x27]"),
            FillStrat.githubIssueCss ("#issue_title")] else [])

/-- The ordered list of fill strategies that `BrowserController.fill`
(browser.py lines 165-357) is prepared to attempt: the GitHub new-repo and
new-issue site hooks first, then the generic chain: structural CSS,
placeholder, textbox-role names (empty names skipped), generic visible
input, and typing into the focused element. -/
def fillChain (page_url body_text selector : String) : List FillStrat :=
  fillHookPart page_url body_text
  ++ (if decide (pyStrip selector ≠ ("")) && hasStructChar (pyStrip selector)
      then [FillStrat.structural] else [])
  ++ (if decide (pyStrip selector ≠ ("")) then [FillStrat.placeholderStrat] else [])
  ++ ((textbox_names (pyStrip selector)).filter (fun n => decide (n ≠ ("")))).map
       FillStrat.textboxRole
  ++ [FillStrat.genericInput, FillStrat.focusedType]

/-- One attempt round of a strategy chain: each strategy is tried in order,
a failure is swallowed and falls through, the first success stops the
chain.  The returned list is the sequence of strategies actually
attempted. -/
def runChain (env : α → Bool) : List α → List α
  | [] => []
  | s :: rest => if env s then [s] else s :: runChain env rest

/-- The strategies actually attempted by one `click(selector)` call, given
an environment saying which strategies succeed against the live page. -/
def clickAttempts (selector : String) (env : ClickStrat → Bool) : List ClickStrat :=
  runChain env (clickChain selector)

/-- The strategies actually attempted by one `fill(selector, text)` call. -/
def fillAttempts (page_url body_text selector : String) (env : FillStrat → Bool) :
    List FillStrat :=
  runChain env (fillChain page_url body_text selector)

/-- The generic (non-hook, non-structural) fill strategies the claim orders
after the structural attempt. -/
def isGenericFill : FillStrat → Bool
  | FillStrat.githubRepoCss _ => false
  | FillStrat.githubIssueCss _ => false
  | FillStrat.structural => false
  | FillStrat.placeholderStrat => true
  | FillStrat.textboxRole _ => true
  | FillStrat.genericInput => true
  | FillStrat.focusedType => true

/-- The GitHub site-template hook strategies of the fill chain. -/
def isHookFill : FillStrat → Bool
  | FillStrat.githubRepoCss _ => true
  | FillStrat.githubIssueCss _ => true
  | _ => false


/-! ## Properties of the manual best-match scan -/

theorem scoreOf_le_three (a b : String) : scoreOf a b ≤ 3 := by
  unfold scoreOf
  split_ifs <;> omega

/-- Once the scan holds a best score of 3, no later candidate replaces it. -/
theorem scanLoop_three (labelLow : String) (e : Elem) :
    ∀ cands, scanLoop labelLow (some e) 3 cands = some e := by
  intro cands
  induction cands with
  | nil => rfl
  | cons c rest ih =>
    have h3 := scoreOf_le_three labelLow (pyLower (pyStrip c.text))
    unfold scanLoop
    split_ifs with h1 h2 hempty hlt
    · exact ih
    · exact ih
    · exact ih
    · omega
    · exact ih

/-- From a best score of 2, the scan result is replaced exactly by the
first later exact match, if any. -/
theorem scanLoop_two (labelLow : String) (e : Elem) :
    ∀ cands, scanLoop labelLow (some e) 2 cands =
      (match cands.find? (exactLowB labelLow) with
       | some x => some x
       | none => some e) := by
  intro cands
  induction cands with
  | nil => rfl
  | cons c rest ih =>
    unfold scanLoop
    split_ifs with h1 h2 h3 h4
    · have hx : exactLowB labelLow c = false := by simp [exactLowB, h1]
      rw [List.find?_cons_of_neg _ (by simp [hx])]
      exact ih
    · have hv : c.visible = false := by simpa using h2
      have hx : exactLowB labelLow c = false := by simp [exactLowB, hv]
      rw [List.find?_cons_of_neg _ (by simp [hx])]
      exact ih
    · have hx : exactLowB labelLow c = false := by simp [exactLowB, h3]
      rw [List.find?_cons_of_neg _ (by simp [hx])]
      exact ih
    · have hexact : pyLower (pyStrip c.text) = labelLow := by
        by_contra hx
        have hle : scoreOf labelLow (pyLower (pyStrip c.text)) ≤ 2 := by
          rw [scoreOf, if_neg hx]
          split_ifs <;> omega
        omega
      have herr : c.errs = false := by simpa using h1
      have hvis : c.visible = true := by simpa using h2
      have hx : exactLowB labelLow c = true := by
        simp [exactLowB, herr, hvis, h3, hexact]
      rw [List.find?_cons_of_pos _ (by simp [hx])]
      rw [show scoreOf labelLow (pyLower (pyStrip c.text)) = 3 from by
            rw [scoreOf, if_pos hexact]]
      exact scanLoop_three labelLow c rest
    · have hexactF : ¬(pyLower (pyStrip c.text) = labelLow) := by
        intro hx
        rw [scoreOf, if_pos hx] at h4
        omega
      have hx : exactLowB labelLow c = false := by simp [exactLowB, hexactF]
      rw [List.find?_cons_of_neg _ (by simp [hx])]
      exact ih

/-- The scan from its initial state returns the first exact match if one
exists, else the first substring match, else nothing. -/
theorem scanLoop_zero (labelLow : String) :
    ∀ cands, scanLoop labelLow none 0 cands =
      (match cands.find? (exactLowB labelLow) with
       | some x => some x
       | none => cands.find? (subLowB labelLow)) := by
  intro cands
  induction cands with
  | nil => rfl
  | cons c rest ih =>
    unfold scanLoop
    split_ifs with h1 h2 h3 h4
    · have hx : exactLowB labelLow c = false := by simp [exactLowB, h1]
      have hy : subLowB labelLow c = false := by simp [subLowB, h1]
      rw [List.find?_cons_of_neg _ (by simp [hx]),
          List.find?_cons_of_neg _ (by simp [hy])]
      exact ih
    · have hv : c.visible = false := by simpa using h2
      have hx : exactLowB labelLow c = false := by simp [exactLowB, hv]
      have hy : subLowB labelLow c = false := by simp [subLowB, hv]
      rw [List.find?_cons_of_neg _ (by simp [hx]),
          List.find?_cons_of_neg _ (by simp [hy])]
      exact ih
    · have hx : exactLowB labelLow c = false := by simp [exactLowB, h3]
      have hy : subLowB labelLow c = false := by simp [subLowB, h3]
      rw [List.find?_cons_of_neg _ (by simp [hx]),
          List.find?_cons_of_neg _ (by simp [hy])]
      exact ih
    · have herr : c.errs = false := by simpa using h1
      have hvis : c.visible = true := by simpa using h2
      by_cases hexact : pyLower (pyStrip c.text) = labelLow
      · have hx : exactLowB labelLow c = true := by
          simp [exactLowB, herr, hvis, h3, hexact]
        rw [List.find?_cons_of_pos _ (by simp [hx])]
        rw [show scoreOf labelLow (pyLower (pyStrip c.text)) = 3 from by
              rw [scoreOf, if_pos hexact]]
        exact scanLoop_three labelLow c rest
      · have hsub : substrB labelLow (pyLower (pyStrip c.text)) = true := by
          by_contra hnsub
          rw [scoreOf, if_neg hexact, if_neg hnsub] at h4
          omega
        have hx : exactLowB labelLow c = false := by simp [exactLowB, hexact]
        have hy : subLowB labelLow c = true := by
          simp [subLowB, herr, hvis, h3, hsub]
        rw [List.find?_cons_of_neg _ (by simp [hx])]
        rw [List.find?_cons_of_pos _ (by simp [hy])]
        rw [show scoreOf labelLow (pyLower (pyStrip c.text)) = 2 from by
              rw [scoreOf, if_neg hexact, if_pos hsub]]
        rw [scanLoop_two labelLow c rest]
    · have hexactF : ¬(pyLower (pyStrip c.text) = labelLow) := by
        intro hx
        rw [scoreOf, if_pos hx] at h4
        omega
      have hsubF : substrB labelLow (pyLower (pyStrip c.text)) = false := by
        cases hcs : substrB labelLow (pyLower (pyStrip c.text)) with
        | false => rfl
        | true =>
          exfalso
          rw [scoreOf, if_neg hexactF, if_pos hcs] at h4
          omega
      have hx : exactLowB labelLow c = false := by simp [exactLowB, hexactF]
      have hy : subLowB labelLow c = false := by simp [subLowB, hsubF]
      rw [List.find?_cons_of_neg _ (by simp [hx]),
          List.find?_cons_of_neg _ (by simp [hy])]
      exact ih

/-- C8: when the structural, role-based, and text-based click strategies
all fail and the manual best-match scan runs, the element clicked is one
whose stripped text equals the label case-insensitively (score 3, first
such by the first-seen tie-break) if any usable candidate has one,
otherwise the first candidate in DOM order whose text contains the label
as a substring (score 2); `firstExactElseSub` is that description taken
from the claim, and the scan of browser.py computes exactly it. -/
theorem C8_manual_scan_best_match (label : String) (cands : List Elem) :
    manualBestMatch label cands = firstExactElseSub label cands := by
  unfold manualBestMatch firstExactElseSub
  exact scanLoop_zero (pyLower label) cands

/-! ## Ordering of the strategy chains -/

/-- The attempted strategies are an initial segment of the full chain. -/
theorem runChain_take (env : α → Bool) :
    ∀ l : List α, ∃ k, runChain env l = l.take k := by
  intro l
  induction l with
  | nil => exact ⟨0, rfl⟩
  | cons s rest ih =>
    by_cases h : env s = true
    · exact ⟨1, by simp [runChain, h]⟩
    · obtain ⟨k, hk⟩ := ih
      exact ⟨k + 1, by simp [runChain, h, hk]⟩

/-- In any initial segment of `A ++ a :: B`, an element `g` distinct from
`a` and not occurring in `A` can only appear after an occurrence of `a`. -/
theorem take_pair_sublist {α : Type} (a g : α) (hga : g ≠ a) :
    ∀ (A B : List α), g ∉ A → ∀ k, g ∈ (A ++ a :: B).take k →
      List.Sublist [a, g] ((A ++ a :: B).take k) := by
  intro A
  induction A with
  | nil =>
    intro B _ k hg
    cases k with
    | zero => simp at hg
    | succ k =>
      have hmem : g ∈ B.take k := by
        rcases List.mem_cons.1 (by simpa using hg) with h | h
        · exact absurd h hga
        · exact h
      exact (List.singleton_sublist.2 hmem).cons₂ a
  | cons x A ih =>
    intro B hgA k hg
    cases k with
    | zero => simp at hg
    | succ k =>
      have hgx : g ≠ x := by
        intro e
        exact hgA (by simp [e])
      have hg2 : g ∈ (A ++ a :: B).take k := by
        rcases List.mem_cons.1 (by simpa using hg) with h | h
        · exact absurd h hgx
        · exact h
      have hA2 : g ∉ A := fun h => hgA (List.mem_cons_of_mem x h)
      exact (ih B hA2 k hg2).cons x

/-- A string with a structural-selector character is non-empty. -/
theorem hasStructChar_ne (s : String) (h : hasStructChar s = true) : s ≠ ("") := by
  intro e
  rw [e] at h
  exact absurd h (by decide)

/-- Every element of the GitHub hook part of the fill chain is a hook. -/
theorem fillHookPart_hooks (u b : String) :
    ∀ s ∈ fillHookPart u b, isHookFill s = true := by
  intro s hs
  unfold fillHookPart at hs
  rcases List.mem_append.1 hs with h | h
  · split at h
    · rcases List.mem_cons.1 h with h2 | h2
      · rw [h2]; rfl
      · rcases List.mem_cons.1 h2 with h3 | h3
        · rw [h3]; rfl
        · simp at h3
    · simp at h
  · split at h
    · rcases List.mem_cons.1 h with h2 | h2
      · rw [h2]; rfl
      · rcases List.mem_cons.1 h2 with h3 | h3
        · rw [h3]; rfl
        · simp at h3
    · simp at h

theorem generic_not_hook (g : FillStrat) (h : isGenericFill g = true) :
    isHookFill g = false := by
  cases g <;> simp_all [isGenericFill, isHookFill]

theorem generic_not_structural (g : FillStrat) (h : isGenericFill g = true) :
    g ≠ FillStrat.structural := by
  cases g <;> simp_all [isGenericFill]

/-- C9: for every label containing a structural-selector character
(`#`, `.`, `[`, `>`, `:`), both the click chain and the fill chain attempt
the label as a direct structural locator strictly before any role-based,
text/placeholder-based, manual-scan or other generic strategy they attempt
(witnessed by the pair `[structural, g]` being an ordered sublist of the
attempt trace). -/
theorem C9_structural_first (selector page_url body_text : String)
    (envC : ClickStrat → Bool) (envF : FillStrat → Bool)
    (hs : hasStructChar (pyStrip selector) = true) :
    (∀ g, g ∈ clickAttempts selector envC → g ≠ ClickStrat.structural →
        List.Sublist [ClickStrat.structural, g] (clickAttempts selector envC))
    ∧ (∀ g, g ∈ fillAttempts page_url body_text selector envF → isGenericFill g = true →
        List.Sublist [FillStrat.structural, g] (fillAttempts page_url body_text selector envF)) := by
  have hne := hasStructChar_ne (pyStrip selector) hs
  constructor
  · intro g hg hgs
    have hchain : clickChain selector =
        [] ++ ClickStrat.structural ::
          ([ClickStrat.roleStrat ("button"), ClickStrat.roleStrat ("link"),
            ClickStrat.roleStrat ("tab")]
           ++ (if decide (pyStrip selector ≠ ("")) then [ClickStrat.textStrat] else [])
           ++ [ClickStrat.manualScan, ClickStrat.firstVisible]) := by
      simp [clickChain, hs, hne]
    obtain ⟨k, hk⟩ := runChain_take envC (clickChain selector)
    rw [clickAttempts, hk, hchain] at hg ⊢
    exact take_pair_sublist ClickStrat.structural g hgs _ _ (by simp) k hg
  · intro g hg hgen
    have hchain : fillChain page_url body_text selector =
        fillHookPart page_url body_text ++ FillStrat.structural ::
          ((if decide (pyStrip selector ≠ ("")) then [FillStrat.placeholderStrat] else [])
           ++ ((textbox_names (pyStrip selector)).filter (fun n => decide (n ≠ ("")))).map
                FillStrat.textboxRole
           ++ [FillStrat.genericInput, FillStrat.focusedType]) := by
      simp [fillChain, hs, hne]
    obtain ⟨k, hk⟩ := runChain_take envF (fillChain page_url body_text selector)
    rw [fillAttempts, hk, hchain] at hg ⊢
    refine take_pair_sublist FillStrat.structural g
      (generic_not_structural g hgen) _ _ ?_ k hg
    intro hmem
    have := fillHookPart_hooks page_url body_text g hmem
    rw [generic_not_hook g hgen] at this
    exact absurd this (by decide)

/-- Concrete instantiation of the chain-ordering theorem: with label
`"#missing"` and every strategy failing, the placeholder strategy is
attempted only after the structural one. -/
theorem C9_structural_first_witness :
    List.Sublist [FillStrat.structural, FillStrat.placeholderStrat]
      (fillAttempts ("https://example.com") ("") ("#missing") (fun _ => false)) :=
  (C9_structural_first ("#missing") ("https://example.com") ("") (fun _ => false)
      (fun _ => false) (by decide)).2
    FillStrat.placeholderStrat (by decide) (by decide)

/-! ## Workflow orchestrator model (agent.py `run_task_workflow`) -/

/-- Constant `MAX_STEPS` from config.py. -/
def MAX_STEPS : Nat := 15

/-- Zero-padded step index, as in the step-name format string of the
source (faithful for indices up to 99, far above the step budget). -/
def pad2 (n : Nat) : String :=
  if n < 10 then ("0" ++ toString n) else toString n

/-- Step-name stem of every evidence path of one iteration. -/
def stepName (idx : Nat) : String := ("step_" ++ pad2 idx)

/-- The `action` entry of a step record: either a synthetic marker
(`manual_login` from the pause branch, `auto_done` from the success
branches) or the planner `AgentAction` serialized with `asdict`. -/
inductive RecordedAction
  | manual_login
  | auto_done (reason : String)
  | planned (a : AgentAction)
deriving DecidableEq

/-- One entry of `metadata["steps"]`. -/
structure StepRecord where
  step : Nat
  url : String
  action : RecordedAction
  before : Option String := none
  after : Option String := none
  error : Option String := none
deriving DecidableEq

/-- The browser operations the orchestrator can invoke, recorded as a
trace (`blockForHuman` is the `input()` acknowledgment of the login
pause). -/
inductive BrowserOp
  | goto (url : String)
  | clickOp (sel : String)
  | fillOp (sel : String) (txt : String)
  | waitOp (ms : Nat)
  | shot (path : String)
  | blockForHuman
deriving DecidableEq

/-- The mutable state of one run of `run_task_workflow`: the `metadata`
dictionary fields, the `login_handled` flag, the trace of browser
operations performed so far, and the count of loop iterations entered. -/
structure RunState where
  login_handled : Bool := false
  steps : List StepRecord := []
  stopped_reason : Option String := none
  error_msg : Option String := none
  final_url : Option String := none
  ops : List BrowserOp := []
  iters : Nat := 0
deriving DecidableEq

/-- How one loop iteration ended: `cont` falls through to the next
iteration, `brk` is a `break`, `raised` is an exception escaping the loop
body (and hence `run_task_workflow` itself). -/
inductive StepExit
  | cont
  | brk
  | raised
deriving DecidableEq

/-- Outcome of the planner call for one step: the Groq API call itself
raising (uncaught in the source), or raw output whose JSON parse result is
`parsed` (`none` = parse failure, absorbed by `decide_next_action`). -/
inductive PlannerResult
  | raises
  | output (parsed : Option PlannerPayload)
deriving DecidableEq

/-- Environment-supplied input for one loop iteration: the fresh DOM
snapshot, the planner outcome, and flags saying which external operations
raise at this iteration: `shotRaises` for `browser.screenshot` calls made
outside the action `try` block, `execRaises` for the browser operation
inside the `try` block, `errorShotRaises` for the screenshot inside the
error handler (itself guarded), `settleRaises` for the 600 ms settle
wait. -/
structure StepInput where
  dom : PageSnapshot
  planner : PlannerResult
  shotRaises : Bool := false
  execRaises : Bool := false
  errorShotRaises : Bool := false
  settleRaises : Bool := false
deriving DecidableEq

/-- The `except Exception` handler of the action `try` block (agent.py
lines 394-414): best-effort error screenshot (a second failure is
tolerated and recorded as absent), terminal metadata fields, one step
record carrying the error, then `break`. -/
def errorPath (idx : Nat) (dom : PageSnapshot) (action : AgentAction)
    (st : RunState) (inp : StepInput) (before : Option String) :
    RunState × StepExit :=
  let after : Option String :=
    if inp.errorShotRaises then none else some (stepName idx ++ ("_error.png"))
  let st1 : RunState :=
    if inp.errorShotRaises then st
    else { st with ops := st.ops ++ [BrowserOp.shot (stepName idx ++ ("_error.png"))] }
  ({ st1 with
      stopped_reason := some ("action_error")
      error_msg := some ("exec_error")
      final_url := some dom.url
      steps := st1.steps ++ [{ step := idx, url := dom.url,
                               action := RecordedAction.planned action,
                               before := before, after := after,
                               error := some ("exec_error") }] },
   StepExit.brk)

/-- The tail of a non-terminal iteration (agent.py lines 416-442): the
fixed 600 ms settle wait, the optional after screenshot, and the step
record; then the loop continues. -/
def continuePath (idx : Nat) (dom : PageSnapshot) (action : AgentAction)
    (st : RunState) (inp : StepInput) (before : Option String) :
    RunState × StepExit :=
  if inp.settleRaises then (st, StepExit.raised)
  else
    let st1 : RunState := { st with ops := st.ops ++ [BrowserOp.waitOp 600] }
    if action.screenshot_after && inp.shotRaises then (st1, StepExit.raised)
    else
      let after : Option String :=
        if action.screenshot_after then some (stepName idx ++ ("_after.png")) else none
      let st2 : RunState :=
        if action.screenshot_after
        then { st1 with ops := st1.ops ++ [BrowserOp.shot (stepName idx ++ ("_after.png"))] }
        else st1
      ({ st2 with
          steps := st2.steps ++ [{ step := idx, url := dom.url,
                                   action := RecordedAction.planned action,
                                   before := before, after := after }] },
       StepExit.cont)

/-- The action `try` block (agent.py lines 372-414): dispatch on the
action type with Python truthiness guards on `selector` / `text`; any
exception from the attempted browser operation (or from the `done`
branch final screenshot) lands in `errorPath`; an action matching no
branch executes nothing and cannot raise. -/
def execPhase (idx : Nat) (dom : PageSnapshot) (action : AgentAction)
    (st : RunState) (inp : StepInput) (before : Option String) :
    RunState × StepExit :=
  if decide (action.action_type = ("click")) && pyTruthy action.selector then
    if inp.execRaises then errorPath idx dom action st inp before
    else continuePath idx dom action
      { st with ops := st.ops ++ [BrowserOp.clickOp (action.selector.getD (""))] }
      inp before
  else if decide (action.action_type = ("type")) && pyTruthy action.text then
    if inp.execRaises then errorPath idx dom action st inp before
    else continuePath idx dom action
      { st with ops := st.ops ++ [BrowserOp.fillOp (action.selector.getD (""))
                                    (action.text.getD (""))] }
      inp before
  else if decide (action.action_type = ("wait")) then
    if inp.execRaises then errorPath idx dom action st inp before
    else continuePath idx dom action
      { st with ops := st.ops ++ [BrowserOp.waitOp (pyOrNat action.wait_ms 800)] }
      inp before
  else if decide (action.action_type = ("done")) then
    if inp.execRaises then errorPath idx dom action st inp before
    else
      ({ st with
          ops := st.ops ++ [BrowserOp.shot (stepName idx ++ ("_final.png"))]
          stopped_reason := some ("llm_done")
          final_url := some dom.url
          steps := st.steps ++ [{ step := idx, url := dom.url,
                                  action := RecordedAction.planned action,
                                  before := before,
                                  after := some (stepName idx ++ ("_final.png")) }] },
       StepExit.brk)
  else
    continuePath idx dom action st inp before

/-- One iteration of the main loop of `run_task_workflow` (agent.py lines
273-442), in the priority order of the source: manual-login pause (once),
stuck-on-login stop (note: it appends no step record), repository-success
stop, issue-success stop, then the planner-driven action step. -/
def runStep (task start_url : String) (st0 : RunState) (inp : StepInput) :
    RunState × StepExit :=
  let idx := st0.iters + 1
  let st : RunState := { st0 with iters := idx }
  let dom := inp.dom
  if looks_like_login_or_oauth dom && !st.login_handled then
    let st1 : RunState :=
      { st with login_handled := true,
                ops := st.ops ++ [BrowserOp.blockForHuman, BrowserOp.goto start_url] }
    if inp.shotRaises then (st1, StepExit.raised)
    else
      ({ st1 with
          ops := st1.ops ++ [BrowserOp.shot (stepName idx ++ ("_after_login.png"))]
          steps := st1.steps ++ [{ step := idx, url := dom.url,
                                   action := RecordedAction.manual_login,
                                   before := none,
                                   after := some (stepName idx ++ ("_after_login.png")) }] },
       StepExit.cont)
  else if looks_like_login_or_oauth dom && st.login_handled then
    if inp.shotRaises then (st, StepExit.raised)
    else
      ({ st with
          ops := st.ops ++ [BrowserOp.shot (stepName idx ++ ("_login_stuck.png"))]
          stopped_reason := some ("stuck_on_login")
          final_url := some dom.url },
       StepExit.brk)
  else if looks_like_github_repo_page dom task then
    if inp.shotRaises then (st, StepExit.raised)
    else
      ({ st with
          ops := st.ops ++ [BrowserOp.shot (stepName idx ++ ("_final_repo.png"))]
          stopped_reason := some ("github_repo_detected")
          final_url := some dom.url
          steps := st.steps ++ [{ step := idx, url := dom.url,
                                  action := RecordedAction.auto_done
                                    ("Detected GitHub repo page (create workflow completed)"),
                                  before := none,
                                  after := some (stepName idx ++ ("_final_repo.png")) }] },
       StepExit.brk)
  else if looks_like_github_issue_page dom task then
    if inp.shotRaises then (st, StepExit.raised)
    else
      ({ st with
          ops := st.ops ++ [BrowserOp.shot (stepName idx ++ ("_final_issue.png"))]
          stopped_reason := some ("github_issue_detected")
          final_url := some dom.url
          steps := st.steps ++ [{ step := idx, url := dom.url,
                                  action := RecordedAction.auto_done
                                    ("Detected GitHub issue page (issue workflow completed)"),
                                  before := none,
                                  after := some (stepName idx ++ ("_final_issue.png")) }] },
       StepExit.brk)
  else
    match inp.planner with
    | PlannerResult.raises => (st, StepExit.raised)
    | PlannerResult.output parsed =>
      let action := decide_next_action parsed
      if action.screenshot_before && inp.shotRaises then (st, StepExit.raised)
      else
        let before : Option String :=
          if action.screenshot_before then some (stepName idx ++ ("_before.png")) else none
        let st1 : RunState :=
          if action.screenshot_before
          then { st with ops := st.ops ++ [BrowserOp.shot (stepName idx ++ ("_before.png"))] }
          else st
        execPhase idx dom action st1 inp before

/-- Final outcome of a run: the final state, whether an exception escaped
the loop (in which case `metadata.json` is never written), and whether
the loop ended via a `break` (as opposed to exhausting the step
budget). -/
structure RunResult where
  state : RunState
  raised : Bool
  broke : Bool
deriving DecidableEq

/-- The `for step_idx in range(1, MAX_STEPS + 1)` loop, driven by the
environment oracle: `fuel` is the number of remaining iterations. -/
def runFrom (task start_url : String) (env : Nat → StepInput) :
    Nat → RunState → RunResult
  | 0, st => { state := st, raised := false, broke := false }
  | fuel + 1, st =>
    match runStep task start_url st (env (st.iters + 1)) with
    | (st1, StepExit.cont) => runFrom task start_url env fuel st1
    | (st1, StepExit.brk) => { state := st1, raised := false, broke := true }
    | (st1, StepExit.raised) => { state := st1, raised := true, broke := false }

/-- The state entering the loop: empty metadata and the initial
`browser.goto(start_url)`. -/
def init_state (start_url : String) : RunState :=
  { ops := [BrowserOp.goto start_url] }

/-- Function `run_task_workflow` (agent.py lines 233-449): run the loop for at most
`MAX_STEPS` iterations; on a normal return (no escaping exception) the
complete metadata journal is serialized exactly once from the final
state. -/
def run_task_workflow (task start_url : String) (env : Nat → StepInput) : RunResult :=
  runFrom task start_url env MAX_STEPS (init_state start_url)

/-- Test for the blocking `input()` acknowledgment operation. -/
def isPauseOp : BrowserOp → Bool
  | BrowserOp.blockForHuman => true
  | _ => false

/-- Number of manual-login pauses (blocking `input()` calls) in a trace. -/
def countPause (ops : List BrowserOp) : Nat :=
  ops.countP isPauseOp

/-- Classification of a planner action that matches none of the four
executable branches of the action dispatch: an unknown `action_type`, a
`click` without a (truthy) selector, or a `type` without (truthy) text. -/
def isNoOpAction (a : AgentAction) : Bool :=
  !(decide (a.action_type = ("click")) && pyTruthy a.selector)
    && !(decide (a.action_type = ("type")) && pyTruthy a.text)
    && !(decide (a.action_type = ("wait")))
    && !(decide (a.action_type = ("done")))

/-! ## Per-step properties of the workflow loop -/

/-- Frame facts for the tail of a non-terminal iteration. -/
theorem continuePath_frame (idx : Nat) (dom : PageSnapshot) (action : AgentAction)
    (st : RunState) (inp : StepInput) (before : Option String) :
    (continuePath idx dom action st inp before).1.iters = st.iters ∧
    (continuePath idx dom action st inp before).1.login_handled = st.login_handled ∧
    (continuePath idx dom action st inp before).1.stopped_reason = st.stopped_reason ∧
    (continuePath idx dom action st inp before).1.final_url = st.final_url ∧
    (continuePath idx dom action st inp before).2 ≠ StepExit.brk ∧
    ((continuePath idx dom action st inp before).2 = StepExit.cont →
      (continuePath idx dom action st inp before).1.steps.length = st.steps.length + 1) ∧
    ((continuePath idx dom action st inp before).2 = StepExit.raised →
      (continuePath idx dom action st inp before).1.steps = st.steps) := by
  unfold continuePath
  split_ifs <;> simp

/-- Frame facts for the error handler of the action block. -/
theorem errorPath_frame (idx : Nat) (dom : PageSnapshot) (action : AgentAction)
    (st : RunState) (inp : StepInput) (before : Option String) :
    (errorPath idx dom action st inp before).2 = StepExit.brk ∧
    (errorPath idx dom action st inp before).1.iters = st.iters ∧
    (errorPath idx dom action st inp before).1.login_handled = st.login_handled ∧
    (errorPath idx dom action st inp before).1.stopped_reason = some ("action_error") ∧
    (errorPath idx dom action st inp before).1.final_url = some dom.url ∧
    (errorPath idx dom action st inp before).1.steps.length = st.steps.length + 1 := by
  unfold errorPath
  split_ifs <;> simp

/-- Frame facts for the action dispatch (`try` block) of one iteration. -/
theorem execPhase_frame (idx : Nat) (dom : PageSnapshot) (action : AgentAction)
    (st : RunState) (inp : StepInput) (before : Option String) :
    (execPhase idx dom action st inp before).1.iters = st.iters ∧
    (execPhase idx dom action st inp before).1.login_handled = st.login_handled ∧
    ((execPhase idx dom action st inp before).2 = StepExit.cont →
        (execPhase idx dom action st inp before).1.stopped_reason = st.stopped_reason ∧
        (execPhase idx dom action st inp before).1.final_url = st.final_url ∧
        (execPhase idx dom action st inp before).1.steps.length = st.steps.length + 1) ∧
    ((execPhase idx dom action st inp before).2 = StepExit.brk →
        ((execPhase idx dom action st inp before).1.stopped_reason = some ("action_error") ∨
         (execPhase idx dom action st inp before).1.stopped_reason = some ("llm_done")) ∧
        (execPhase idx dom action st inp before).1.final_url = some dom.url ∧
        (execPhase idx dom action st inp before).1.steps.length = st.steps.length + 1) ∧
    ((execPhase idx dom action st inp before).2 = StepExit.raised →
        (execPhase idx dom action st inp before).1.stopped_reason = st.stopped_reason ∧
        (execPhase idx dom action st inp before).1.final_url = st.final_url ∧
        (execPhase idx dom action st inp before).1.steps = st.steps) := by
  unfold execPhase
  split_ifs with h1 h2 h3 h4 h5 h6 h7 h8
  · obtain ⟨e1, e2, e3, e4, e5, e6⟩ := errorPath_frame idx dom action st inp before
    refine ⟨e2, e3, ?_, ?_, ?_⟩
    · intro h
      rw [e1] at h
      simp at h
    · intro _
      exact ⟨Or.inl e4, e5, e6⟩
    · intro h
      rw [e1] at h
      simp at h
  · obtain ⟨c1, c2, c3, c4, c5, c6, c7⟩ := continuePath_frame idx dom action
      { st with ops := st.ops ++ [BrowserOp.clickOp (action.selector.getD (""))] }
      inp before
    exact ⟨c1, c2, fun h => ⟨c3, c4, c6 h⟩, fun h => absurd h c5, fun h => ⟨c3, c4, c7 h⟩⟩
  · obtain ⟨e1, e2, e3, e4, e5, e6⟩ := errorPath_frame idx dom action st inp before
    refine ⟨e2, e3, ?_, ?_, ?_⟩
    · intro h
      rw [e1] at h
      simp at h
    · intro _
      exact ⟨Or.inl e4, e5, e6⟩
    · intro h
      rw [e1] at h
      simp at h
  · obtain ⟨c1, c2, c3, c4, c5, c6, c7⟩ := continuePath_frame idx dom action
      { st with ops := st.ops ++ [BrowserOp.fillOp (action.selector.getD (""))
                                    (action.text.getD (""))] }
      inp before
    exact ⟨c1, c2, fun h => ⟨c3, c4, c6 h⟩, fun h => absurd h c5, fun h => ⟨c3, c4, c7 h⟩⟩
  · obtain ⟨e1, e2, e3, e4, e5, e6⟩ := errorPath_frame idx dom action st inp before
    refine ⟨e2, e3, ?_, ?_, ?_⟩
    · intro h
      rw [e1] at h
      simp at h
    · intro _
      exact ⟨Or.inl e4, e5, e6⟩
    · intro h
      rw [e1] at h
      simp at h
  · obtain ⟨c1, c2, c3, c4, c5, c6, c7⟩ := continuePath_frame idx dom action
      { st with ops := st.ops ++ [BrowserOp.waitOp (pyOrNat action.wait_ms 800)] }
      inp before
    exact ⟨c1, c2, fun h => ⟨c3, c4, c6 h⟩, fun h => absurd h c5, fun h => ⟨c3, c4, c7 h⟩⟩
  · obtain ⟨e1, e2, e3, e4, e5, e6⟩ := errorPath_frame idx dom action st inp before
    refine ⟨e2, e3, ?_, ?_, ?_⟩
    · intro h
      rw [e1] at h
      simp at h
    · intro _
      exact ⟨Or.inl e4, e5, e6⟩
    · intro h
      rw [e1] at h
      simp at h
  · refine ⟨rfl, rfl, ?_, ?_, ?_⟩
    · intro h
      simp at h
    · intro _
      exact ⟨Or.inr rfl, rfl, by simp⟩
    · intro h
      simp at h
  · obtain ⟨c1, c2, c3, c4, c5, c6, c7⟩ := continuePath_frame idx dom action st inp before
    exact ⟨c1, c2, fun h => ⟨c3, c4, c6 h⟩, fun h => absurd h c5, fun h => ⟨c3, c4, c7 h⟩⟩

/-- Case-digested form of the exec-phase frame facts. -/
theorem execPhase_cases {idx : Nat} {dom : PageSnapshot} {action : AgentAction}
    {st : RunState} {inp : StepInput} {before : Option String}
    {st1 : RunState} {e : StepExit}
    (hr : execPhase idx dom action st inp before = (st1, e)) :
    st1.iters = st.iters ∧ st1.login_handled = st.login_handled ∧
    (e = StepExit.cont → st1.stopped_reason = st.stopped_reason ∧
        st1.final_url = st.final_url ∧ st1.steps.length = st.steps.length + 1) ∧
    (e = StepExit.brk → (st1.stopped_reason = some ("action_error") ∨
        st1.stopped_reason = some ("llm_done")) ∧
        st1.final_url = some dom.url ∧ st1.steps.length = st.steps.length + 1) ∧
    (e = StepExit.raised → st1.stopped_reason = st.stopped_reason ∧
        st1.final_url = st.final_url ∧ st1.steps = st.steps) := by
  have f := execPhase_frame idx dom action st inp before
  rw [hr] at f
  simpa using f

/-- Frame lemma for one loop iteration entered with unset terminal fields:
the iteration counter advances by one; a continuing iteration appends
exactly one record and leaves the terminal fields unset; a breaking
iteration sets both terminal fields and appends exactly one record unless
it is the stuck-on-login stop (which appends none); an iteration aborted
by an escaping exception appends no record and leaves the terminal fields
unset. -/
theorem runStep_cases {task start_url : String} {st : RunState} {inp : StepInput}
    {st1 : RunState} {e : StepExit}
    (hr : runStep task start_url st inp = (st1, e))
    (hnone : st.stopped_reason = none) (hfin : st.final_url = none) :
    st1.iters = st.iters + 1 ∧
    (e = StepExit.cont → st1.stopped_reason = none ∧ st1.final_url = none ∧
        st1.steps.length = st.steps.length + 1) ∧
    (e = StepExit.brk → st1.stopped_reason.isSome = true ∧ st1.final_url.isSome = true ∧
        st1.steps.length = st.steps.length +
          (if st1.stopped_reason = some ("stuck_on_login") then 0 else 1)) ∧
    (e = StepExit.raised → st1.stopped_reason = none ∧ st1.final_url = none ∧
        st1.steps.length = st.steps.length) := by
  unfold runStep at hr
  cases hlog : looks_like_login_or_oauth inp.dom with
  | true =>
    cases hh : st.login_handled with
    | false =>
      simp only [hlog, hh] at hr
      cases hs : inp.shotRaises with
      | true =>
        simp only [hs, if_true, Bool.not_false, Bool.and_true, if_pos] at hr
        injection hr with hA hB
        subst hA
        subst hB
        simp [hnone, hfin]
      | false =>
        simp only [hs, Bool.not_false, Bool.and_true] at hr
        injection hr with hA hB
        subst hA
        subst hB
        simp [hnone, hfin]
    | true =>
      simp only [hlog, hh, Bool.not_true, Bool.and_false, Bool.and_true] at hr
      cases hs : inp.shotRaises with
      | true =>
        simp only [hs] at hr
        injection hr with hA hB
        subst hA
        subst hB
        simp [hnone, hfin]
      | false =>
        simp only [hs] at hr
        injection hr with hA hB
        subst hA
        subst hB
        simp [hnone, hfin]
  | false =>
    cases hrepo : looks_like_github_repo_page inp.dom task with
    | true =>
      simp only [hlog, hrepo, Bool.false_and] at hr
      cases hs : inp.shotRaises with
      | true =>
        simp only [hs] at hr
        injection hr with hA hB
        subst hA
        subst hB
        simp [hnone, hfin]
      | false =>
        simp only [hs] at hr
        injection hr with hA hB
        subst hA
        subst hB
        simp [hnone, hfin,
          show ("github_repo_detected" : String) ≠ ("stuck_on_login") from by decide]
    | false =>
      cases hissue : looks_like_github_issue_page inp.dom task with
      | true =>
        simp only [hlog, hrepo, hissue, Bool.false_and] at hr
        cases hs : inp.shotRaises with
        | true =>
          simp only [hs] at hr
          injection hr with hA hB
          subst hA
          subst hB
          simp [hnone, hfin]
        | false =>
          simp only [hs] at hr
          injection hr with hA hB
          subst hA
          subst hB
          simp [hnone, hfin,
            show ("github_issue_detected" : String) ≠ ("stuck_on_login") from by decide]
      | false =>
        simp only [hlog, hrepo, hissue, Bool.false_and] at hr
        cases hpl : inp.planner with
        | raises =>
          rw [hpl] at hr
          simp only at hr
          injection hr with hA hB
          subst hA
          subst hB
          simp [hnone, hfin]
        | output parsed =>
          rw [hpl] at hr
          simp only at hr
          cases hsb : (decide_next_action parsed).screenshot_before with
          | true =>
            cases hs : inp.shotRaises with
            | true =>
              simp only [hsb, hs, Bool.and_self] at hr
              injection hr with hA hB
              subst hA
              subst hB
              simp [hnone, hfin]
            | false =>
              simp only [hsb, hs, Bool.and_false, Bool.true_and, if_true] at hr
              obtain ⟨f1, f2, fc, fb, fr⟩ := execPhase_cases hr
              refine ⟨by simpa using f1, ?_, ?_, ?_⟩
              · intro h
                obtain ⟨g1, g2, g3⟩ := fc h
                exact ⟨by simpa [hnone] using g1, by simpa [hfin] using g2,
                  by simpa using g3⟩
              · intro h
                obtain ⟨g1, g2, g3⟩ := fb h
                refine ⟨?_, by simp [g2], ?_⟩
                · rcases g1 with g | g <;> simp [g]
                · rcases g1 with g | g <;>
                    simp [g, show ("action_error" : String) ≠ ("stuck_on_login") from by decide,
                      show ("llm_done" : String) ≠ ("stuck_on_login") from by decide] <;>
                    simpa using g3
              · intro h
                obtain ⟨g1, g2, g3⟩ := fr h
                exact ⟨by simpa [hnone] using g1, by simpa [hfin] using g2,
                  by simp [g3]⟩
          | false =>
            simp only [hsb, Bool.false_and, if_false] at hr
            obtain ⟨f1, f2, fc, fb, fr⟩ := execPhase_cases hr
            refine ⟨by simpa using f1, ?_, ?_, ?_⟩
            · intro h
              obtain ⟨g1, g2, g3⟩ := fc h
              exact ⟨by simpa [hnone] using g1, by simpa [hfin] using g2,
                by simpa using g3⟩
            · intro h
              obtain ⟨g1, g2, g3⟩ := fb h
              refine ⟨?_, by simp [g2], ?_⟩
              · rcases g1 with g | g <;> simp [g]
              · rcases g1 with g | g <;>
                  simp [g, show ("action_error" : String) ≠ ("stuck_on_login") from by decide,
                    show ("llm_done" : String) ≠ ("stuck_on_login") from by decide] <;>
                  simpa using g3
            · intro h
              obtain ⟨g1, g2, g3⟩ := fr h
              exact ⟨by simpa [hnone] using g1, by simpa [hfin] using g2,
                by simp [g3]⟩

/-- The error handler always ends the iteration with a `break`. -/
theorem errorPath_exit (idx : Nat) (dom : PageSnapshot) (action : AgentAction)
    (st : RunState) (inp : StepInput) (before : Option String) :
    (errorPath idx dom action st inp before).2 = StepExit.brk := by
  unfold errorPath
  split_ifs <;> rfl

/-- With no settle-wait failure and no screenshot failure, the
continuation tail always reaches the next iteration. -/
theorem continuePath_no_raise {inp : StepInput} (h2 : inp.shotRaises = false)
    (h3 : inp.settleRaises = false) (idx : Nat) (dom : PageSnapshot)
    (action : AgentAction) (st : RunState) (before : Option String) :
    (continuePath idx dom action st inp before).2 = StepExit.cont := by
  unfold continuePath
  simp [h2, h3]

/-- The action dispatch never lets an exception escape: every failure of
the attempted browser operation is absorbed by the error handler. -/
theorem execPhase_no_raise {inp : StepInput} (h2 : inp.shotRaises = false)
    (h3 : inp.settleRaises = false) (idx : Nat) (dom : PageSnapshot)
    (action : AgentAction) (st : RunState) (before : Option String) :
    (execPhase idx dom action st inp before).2 ≠ StepExit.raised := by
  unfold execPhase
  split_ifs <;> simp [errorPath_exit, continuePath_no_raise h2 h3]

theorem execPhase_exit_cases {idx : Nat} {dom : PageSnapshot} {action : AgentAction}
    {st : RunState} {inp : StepInput} {before : Option String}
    {st1 : RunState} {e : StepExit}
    (hr : execPhase idx dom action st inp before = (st1, e))
    (h2 : inp.shotRaises = false) (h3 : inp.settleRaises = false) :
    e ≠ StepExit.raised := by
  intro hE
  subst hE
  have hne := execPhase_no_raise h2 h3 idx dom action st before
  rw [hr] at hne
  exact hne rfl

/-- An iteration whose planner call succeeds and whose screenshots and
settle wait do not fail never lets an exception escape, whatever the
attempted browser action does. -/
theorem runStep_no_raise {task start_url : String} {st : RunState} {inp : StepInput}
    {st1 : RunState} {e : StepExit}
    (hr : runStep task start_url st inp = (st1, e))
    (h1 : inp.planner ≠ PlannerResult.raises)
    (h2 : inp.shotRaises = false) (h3 : inp.settleRaises = false) :
    e ≠ StepExit.raised := by
  unfold runStep at hr
  cases hlog : looks_like_login_or_oauth inp.dom with
  | true =>
    cases hh : st.login_handled with
    | false =>
      simp only [hlog, hh, h2, Bool.not_false, Bool.and_true] at hr
      injection hr with hA hB
      subst hB
      simp
    | true =>
      simp only [hlog, hh, h2, Bool.not_true, Bool.and_false, Bool.and_true] at hr
      injection hr with hA hB
      subst hB
      simp
  | false =>
    cases hrepo : looks_like_github_repo_page inp.dom task with
    | true =>
      simp only [hlog, hrepo, h2, Bool.false_and] at hr
      injection hr with hA hB
      subst hB
      simp
    | false =>
      cases hissue : looks_like_github_issue_page inp.dom task with
      | true =>
        simp only [hlog, hrepo, hissue, h2, Bool.false_and] at hr
        injection hr with hA hB
        subst hB
        simp
      | false =>
        simp only [hlog, hrepo, hissue, Bool.false_and] at hr
        cases hpl : inp.planner with
        | raises => exact absurd hpl h1
        | output parsed =>
          rw [hpl] at hr
          simp only [h2, Bool.and_false] at hr
          exact execPhase_exit_cases hr h2 h3

/-- The continuation tail performs no blocking pause and preserves the
login flag. -/
theorem continuePath_pause (idx : Nat) (dom : PageSnapshot) (action : AgentAction)
    (st : RunState) (inp : StepInput) (before : Option String) :
    countPause (continuePath idx dom action st inp before).1.ops = countPause st.ops ∧
    (continuePath idx dom action st inp before).1.login_handled = st.login_handled := by
  unfold continuePath
  split_ifs <;>
    simp [countPause, List.countP_append, List.countP_cons, List.countP_nil, isPauseOp]

/-- The error handler performs no blocking pause and preserves the login
flag. -/
theorem errorPath_pause (idx : Nat) (dom : PageSnapshot) (action : AgentAction)
    (st : RunState) (inp : StepInput) (before : Option String) :
    countPause (errorPath idx dom action st inp before).1.ops = countPause st.ops ∧
    (errorPath idx dom action st inp before).1.login_handled = st.login_handled := by
  unfold errorPath
  split_ifs <;>
    simp [countPause, List.countP_append, List.countP_cons, List.countP_nil, isPauseOp]

/-- The action dispatch performs no blocking pause and preserves the login
flag. -/
theorem execPhase_pause (idx : Nat) (dom : PageSnapshot) (action : AgentAction)
    (st : RunState) (inp : StepInput) (before : Option String) :
    countPause (execPhase idx dom action st inp before).1.ops = countPause st.ops ∧
    (execPhase idx dom action st inp before).1.login_handled = st.login_handled := by
  unfold execPhase
  split_ifs with h1 h2 h3 h4 h5 h6 h7 h8
  · exact errorPath_pause idx dom action st inp before
  · obtain ⟨p1, p2⟩ := continuePath_pause idx dom action
      { st with ops := st.ops ++ [BrowserOp.clickOp (action.selector.getD (""))] } inp before
    constructor
    · rw [p1]
      simp [countPause, List.countP_append, List.countP_cons, List.countP_nil, isPauseOp]
    · rw [p2]
  · exact errorPath_pause idx dom action st inp before
  · obtain ⟨p1, p2⟩ := continuePath_pause idx dom action
      { st with ops := st.ops ++ [BrowserOp.fillOp (action.selector.getD (""))
                                    (action.text.getD (""))] } inp before
    constructor
    · rw [p1]
      simp [countPause, List.countP_append, List.countP_cons, List.countP_nil, isPauseOp]
    · rw [p2]
  · exact errorPath_pause idx dom action st inp before
  · obtain ⟨p1, p2⟩ := continuePath_pause idx dom action
      { st with ops := st.ops ++ [BrowserOp.waitOp (pyOrNat action.wait_ms 800)] } inp before
    constructor
    · rw [p1]
      simp [countPause, List.countP_append, List.countP_cons, List.countP_nil, isPauseOp]
    · rw [p2]
  · exact errorPath_pause idx dom action st inp before
  · simp [countPause, List.countP_append, List.countP_cons, List.countP_nil, isPauseOp]
  · exact continuePath_pause idx dom action st inp before

/-- Across one iteration the number of pauses performed so far stays
bounded by the login flag: at most one once login has been handled, none
before. -/
theorem runStep_pause_cases {task start_url : String} {st : RunState} {inp : StepInput}
    {st1 : RunState} {e : StepExit}
    (hr : runStep task start_url st inp = (st1, e))
    (h : countPause st.ops ≤ (if st.login_handled = true then 1 else 0)) :
    countPause st1.ops ≤ (if st1.login_handled = true then 1 else 0) := by
  unfold runStep at hr
  cases hlog : looks_like_login_or_oauth inp.dom with
  | true =>
    cases hh : st.login_handled with
    | false =>
      rw [hh] at h
      simp only [hlog, hh, Bool.not_false, Bool.and_true] at hr
      cases hs : inp.shotRaises with
      | true =>
        simp only [hs] at hr
        injection hr with hA hB
        subst hA
        simp [countPause, List.countP_append, List.countP_cons, List.countP_nil,
          isPauseOp] at h ⊢
        exact h
      | false =>
        simp only [hs] at hr
        injection hr with hA hB
        subst hA
        simp [countPause, List.countP_append, List.countP_cons, List.countP_nil,
          isPauseOp] at h ⊢
        exact h
    | true =>
      rw [hh] at h
      simp only [hlog, hh, Bool.not_true, Bool.and_false, Bool.and_true] at hr
      cases hs : inp.shotRaises with
      | true =>
        simp only [hs] at hr
        injection hr with hA hB
        subst hA
        simpa [countPause, List.countP_append, List.countP_cons, List.countP_nil,
          isPauseOp] using h
      | false =>
        simp only [hs] at hr
        injection hr with hA hB
        subst hA
        simpa [countPause, List.countP_append, List.countP_cons, List.countP_nil,
          isPauseOp] using h
  | false =>
    cases hrepo : looks_like_github_repo_page inp.dom task with
    | true =>
      simp only [hlog, hrepo, Bool.false_and] at hr
      cases hs : inp.shotRaises with
      | true =>
        simp only [hs] at hr
        injection hr with hA hB
        subst hA
        simpa [countPause, List.countP_append, List.countP_cons, List.countP_nil,
          isPauseOp] using h
      | false =>
        simp only [hs] at hr
        injection hr with hA hB
        subst hA
        simpa [countPause, List.countP_append, List.countP_cons, List.countP_nil,
          isPauseOp] using h
    | false =>
      cases hissue : looks_like_github_issue_page inp.dom task with
      | true =>
        simp only [hlog, hrepo, hissue, Bool.false_and] at hr
        cases hs : inp.shotRaises with
        | true =>
          simp only [hs] at hr
          injection hr with hA hB
          subst hA
          simpa [countPause, List.countP_append, List.countP_cons, List.countP_nil,
            isPauseOp] using h
        | false =>
          simp only [hs] at hr
          injection hr with hA hB
          subst hA
          simpa [countPause, List.countP_append, List.countP_cons, List.countP_nil,
            isPauseOp] using h
      | false =>
        simp only [hlog, hrepo, hissue, Bool.false_and] at hr
        cases hpl : inp.planner with
        | raises =>
          rw [hpl] at hr
          simp only at hr
          injection hr with hA hB
          subst hA
          simpa using h
        | output parsed =>
          rw [hpl] at hr
          simp only at hr
          cases hsb : (decide_next_action parsed).screenshot_before with
          | true =>
            cases hs : inp.shotRaises with
            | true =>
              simp only [hsb, hs, Bool.and_self] at hr
              injection hr with hA hB
              subst hA
              simpa using h
            | false =>
              simp only [hsb, hs] at hr
              have hr2 : execPhase (st.iters + 1) inp.dom (decide_next_action parsed)
                  { st with
                      iters := st.iters + 1
                      ops := st.ops ++ [BrowserOp.shot (stepName (st.iters + 1)
                                          ++ ("_before.png"))] }
                  inp (some (stepName (st.iters + 1) ++ ("_before.png"))) = (st1, e) := hr
              obtain ⟨p1, p2⟩ := execPhase_pause (st.iters + 1) inp.dom
                (decide_next_action parsed)
                { st with
                    iters := st.iters + 1
                    ops := st.ops ++ [BrowserOp.shot (stepName (st.iters + 1)
                                        ++ ("_before.png"))] }
                inp (some (stepName (st.iters + 1) ++ ("_before.png")))
              rw [hr2] at p1 p2
              simp only at p1 p2
              rw [p1, p2]
              simpa [countPause, List.countP_append, List.countP_cons, List.countP_nil,
                isPauseOp] using h
          | false =>
            simp only [hsb] at hr
            have hr2 : execPhase (st.iters + 1) inp.dom (decide_next_action parsed)
                { st with iters := st.iters + 1 } inp none = (st1, e) := hr
            obtain ⟨p1, p2⟩ := execPhase_pause (st.iters + 1) inp.dom
              (decide_next_action parsed)
              { st with iters := st.iters + 1 } inp none
            rw [hr2] at p1 p2
            simp only at p1 p2
            rw [p1, p2]
            simpa using h

/-- Once login has been handled, a later login detection never continues
the loop, and when it completes without an escaping exception it stops the
run with reason `stuck_on_login`. -/
theorem runStep_stuck_cases {task start_url : String} {st : RunState} {inp : StepInput}
    {st1 : RunState} {e : StepExit}
    (hr : runStep task start_url st inp = (st1, e))
    (hlog : looks_like_login_or_oauth inp.dom = true)
    (hh : st.login_handled = true) :
    e ≠ StepExit.cont ∧
    (e = StepExit.brk → st1.stopped_reason = some ("stuck_on_login")) := by
  unfold runStep at hr
  simp only [hlog, hh, Bool.not_true, Bool.and_false, Bool.and_true] at hr
  cases hs : inp.shotRaises with
  | true =>
    simp only [hs] at hr
    injection hr with hA hB
    subst hA
    subst hB
    refine ⟨by simp, ?_⟩
    intro hx
    simp at hx
  | false =>
    simp only [hs] at hr
    injection hr with hA hB
    subst hA
    subst hB
    exact ⟨by simp, fun _ => rfl⟩

/-! ## Loop-level invariants -/

/-- Run-level bookkeeping: every iteration entered contributes exactly one
step record, except a stuck-on-login stop and an iteration aborted by an
escaping exception (each contributing none); and, absent an escaping
exception, the terminal fields are set exactly when the loop ended via a
`break`. -/
theorem runFrom_frame (task start_url : String) (env : Nat → StepInput) :
    ∀ fuel st, st.stopped_reason = none → st.final_url = none →
      ((runFrom task start_url env fuel st).state.steps.length +
          (if (runFrom task start_url env fuel st).state.stopped_reason
              = some ("stuck_on_login") then 1 else 0) +
          (if (runFrom task start_url env fuel st).raised = true then 1 else 0) +
          st.iters
        = st.steps.length + (runFrom task start_url env fuel st).state.iters) ∧
      ((runFrom task start_url env fuel st).raised = false →
        (((runFrom task start_url env fuel st).state.stopped_reason.isSome = true ∧
          (runFrom task start_url env fuel st).state.final_url.isSome = true) ↔
         (runFrom task start_url env fuel st).broke = true)) := by
  intro fuel
  induction fuel with
  | zero =>
    intro st hnone hfin
    constructor
    · simp [runFrom, hnone]
    · intro _
      simp [runFrom, hnone]
  | succ fuel ih =>
    intro st hnone hfin
    obtain ⟨st1, e, hstep⟩ :
        ∃ st1 e, runStep task start_url st (env (st.iters + 1)) = (st1, e) :=
      ⟨_, _, rfl⟩
    obtain ⟨hiters, hcont, hbrk, hraise⟩ := runStep_cases hstep hnone hfin
    cases e with
    | cont =>
      obtain ⟨h1, h2, h3⟩ := hcont rfl
      have hrun : runFrom task start_url env (fuel + 1) st =
          runFrom task start_url env fuel st1 := by
        rw [runFrom]
        rw [hstep]
      rw [hrun]
      obtain ⟨ih1, ih2⟩ := ih st1 h1 h2
      exact ⟨by omega, ih2⟩
    | brk =>
      obtain ⟨h1, h2, h3⟩ := hbrk rfl
      have hrun : runFrom task start_url env (fuel + 1) st =
          { state := st1, raised := false, broke := true } := by
        rw [runFrom]
        rw [hstep]
      rw [hrun]
      constructor
      · dsimp only
        rw [if_neg (show ¬(false = true) by simp)]
        by_cases hstuck : st1.stopped_reason = some ("stuck_on_login")
        · rw [if_pos hstuck] at h3 ⊢
          omega
        · rw [if_neg hstuck] at h3 ⊢
          omega
      · intro _
        dsimp only
        simp [h1, h2]
    | raised =>
      obtain ⟨h1, h2, h3⟩ := hraise rfl
      have hrun : runFrom task start_url env (fuel + 1) st =
          { state := st1, raised := true, broke := false } := by
        rw [runFrom]
        rw [hstep]
      rw [hrun]
      constructor
      · dsimp only
        have hx : ¬(st1.stopped_reason = some ("stuck_on_login")) := by simp [h1]
        rw [if_neg hx, if_pos rfl]
        omega
      · intro hcontr
        dsimp only at hcontr
        simp at hcontr

/-- With a planner that never raises and failure-free evidence capture and
settle waits, the loop never lets an exception escape, whatever the
attempted browser actions do. -/
theorem runFrom_no_raise (task start_url : String) (env : Nat → StepInput)
    (hgood : ∀ i, (env i).planner ≠ PlannerResult.raises ∧
        (env i).shotRaises = false ∧ (env i).settleRaises = false) :
    ∀ fuel st, (runFrom task start_url env fuel st).raised = false := by
  intro fuel
  induction fuel with
  | zero =>
    intro st
    rfl
  | succ fuel ih =>
    intro st
    obtain ⟨st1, e, hstep⟩ :
        ∃ st1 e, runStep task start_url st (env (st.iters + 1)) = (st1, e) :=
      ⟨_, _, rfl⟩
    have hne := runStep_no_raise hstep (hgood (st.iters + 1)).1
      (hgood (st.iters + 1)).2.1 (hgood (st.iters + 1)).2.2
    cases e with
    | cont =>
      have hrun : runFrom task start_url env (fuel + 1) st =
          runFrom task start_url env fuel st1 := by
        rw [runFrom]
        rw [hstep]
      rw [hrun]
      exact ih st1
    | brk =>
      have hrun : runFrom task start_url env (fuel + 1) st =
          { state := st1, raised := false, broke := true } := by
        rw [runFrom]
        rw [hstep]
      rw [hrun]
    | raised => exact absurd rfl hne

/-- The pause count stays bounded by one across the whole loop. -/
theorem runFrom_pause (task start_url : String) (env : Nat → StepInput) :
    ∀ fuel st, countPause st.ops ≤ (if st.login_handled = true then 1 else 0) →
      countPause (runFrom task start_url env fuel st).state.ops ≤ 1 := by
  intro fuel
  induction fuel with
  | zero =>
    intro st h
    refine le_trans h ?_
    split_ifs <;> omega
  | succ fuel ih =>
    intro st h
    obtain ⟨st1, e, hstep⟩ :
        ∃ st1 e, runStep task start_url st (env (st.iters + 1)) = (st1, e) :=
      ⟨_, _, rfl⟩
    have hp := runStep_pause_cases hstep h
    cases e with
    | cont =>
      have hrun : runFrom task start_url env (fuel + 1) st =
          runFrom task start_url env fuel st1 := by
        rw [runFrom]
        rw [hstep]
      rw [hrun]
      exact ih st1 hp
    | brk =>
      have hrun : runFrom task start_url env (fuel + 1) st =
          { state := st1, raised := false, broke := true } := by
        rw [runFrom]
        rw [hstep]
      rw [hrun]
      refine le_trans hp ?_
      split_ifs <;> omega
    | raised =>
      have hrun : runFrom task start_url env (fuel + 1) st =
          { state := st1, raised := true, broke := false } := by
        rw [runFrom]
        rw [hstep]
      rw [hrun]
      refine le_trans hp ?_
      split_ifs <;> omega

/-! ## Concrete runs used as counterexamples and witnesses -/

/-- A GitHub login page snapshot. -/
def loginDom : PageSnapshot :=
  { url := ("https://github.com/login"), visible_text := ("") }

/-- A snapshot matching no guardrail. -/
def plainDom : PageSnapshot :=
  { url := ("x"), visible_text := ("") }

/-- Every iteration sees the login page; the planner output never parses. -/
def envStuck : Nat → StepInput := fun _ =>
  { dom := loginDom, planner := PlannerResult.output none }

/-- A payload whose `action_type` is an unknown word. -/
def noopPayload : PlannerPayload := { action_type := some ("noop") }

/-- Every iteration: plain page, planner returns the unknown action. -/
def envNoop : Nat → StepInput := fun _ =>
  { dom := plainDom, planner := PlannerResult.output (some noopPayload) }

/-- The planner API call raises at every iteration. -/
def envBadPlanner : Nat → StepInput := fun _ =>
  { dom := plainDom, planner := PlannerResult.raises }

/-- A well-formed click action whose browser execution raises every
time. -/
def clickXPayload : PlannerPayload :=
  { action_type := some ("click"), selector := some ("x") }

/-- Environment with failing action execution but healthy planner,
screenshots and settle waits. -/
def envExecFail : Nat → StepInput := fun _ =>
  { dom := plainDom, planner := PlannerResult.output (some clickXPayload),
    execRaises := true }

/-! ## Claim theorems -/

/-- C1 counterexample: a run whose first iteration is the manual-login
pause and whose second iteration is the stuck-on-login stop enters two
iterations, ends by a break well before the step budget, yet its journal
holds only one step record (the stuck-on-login stop at agent.py lines
308-314 appends none), refuting "each iteration appends exactly one
StepRecord ... with the single exception of the terminal loop exit after
exceeding the step budget". -/
theorem C1_counterexample :
    (run_task_workflow ("t") ("s") envStuck).raised = false ∧
    (run_task_workflow ("t") ("s") envStuck).broke = true ∧
    (run_task_workflow ("t") ("s") envStuck).state.iters = 2 ∧
    (run_task_workflow ("t") ("s") envStuck).state.steps.length = 1 ∧
    (run_task_workflow ("t") ("s") envStuck).state.steps.length ≠
      (run_task_workflow ("t") ("s") envStuck).state.iters := by
  decide

/-- C1 amended: every iteration of the main loop appends exactly one
StepRecord — including the pause, success, planner-done and
execution-error iterations — except the terminal loop exit after
exceeding the step budget, the stuck-on-login stop, and an iteration
aborted by an exception escaping the loop (each of which appends none):
the journal length plus one for a stuck-on-login ending plus one for an
escaped exception equals the number of iterations entered. -/
theorem C1_amended_one_record_per_iteration (task start_url : String)
    (env : Nat → StepInput) :
    (run_task_workflow task start_url env).state.steps.length +
      (if (run_task_workflow task start_url env).state.stopped_reason
          = some ("stuck_on_login") then 1 else 0) +
      (if (run_task_workflow task start_url env).raised = true then 1 else 0)
      = (run_task_workflow task start_url env).state.iters := by
  have h := (runFrom_frame task start_url env MAX_STEPS (init_state start_url) rfl rfl).1
  unfold run_task_workflow
  simpa [init_state] using h

/-- C2 counterexample: a failure of the planner API call itself (which
agent.py wraps in no `try`) escapes `run_task_workflow` on the very first
step, so no `metadata.json` is written at all, refuting "no planner,
browser, or evidence-capture failure occurring during a step escapes the
orchestrator as an uncaught exception". -/
theorem C2_counterexample :
    (run_task_workflow ("t") ("s") envBadPlanner).raised = true ∧
    (run_task_workflow ("t") ("s") envBadPlanner).state.steps.length = 0 := by
  decide

/-- C2 amended: failures of the attempted browser action inside the
guarded execution block (including the final screenshot of the `done` branch)
never escape — such runs finish normally and the journal is written; but
a planner API failure, an evidence-capture failure outside the guarded
block, or a settle-wait failure does escape as an uncaught exception and
no metadata.json is written.  Formally: whenever the planner call itself
and the out-of-block screenshots and settle waits do not fail, the run
finishes without an escaping exception, whatever the attempted browser
actions do. -/
theorem C2_amended_exec_failures_absorbed (task start_url : String)
    (env : Nat → StepInput)
    (hgood : ∀ i, (env i).planner ≠ PlannerResult.raises ∧
        (env i).shotRaises = false ∧ (env i).settleRaises = false) :
    (run_task_workflow task start_url env).raised = false :=
  runFrom_no_raise task start_url env hgood MAX_STEPS (init_state start_url)

/-- Concrete instantiation: with a planner that parses and execution that
always raises, the run still finishes (with the error absorbed). -/
theorem C2_amended_exec_failures_absorbed_witness :
    (run_task_workflow ("t") ("s") envExecFail).raised = false :=
  C2_amended_exec_failures_absorbed ("t") ("s") envExecFail
    (fun i => ⟨by simp [envExecFail], rfl, rfl⟩)

/-- C3: login/OAuth detection returns true exactly when the URL contains
an identity-provider marker (`accounts.google.com` or `github.com/login`,
checked on the lowered URL) or at least 2 of the eight case-insensitive
marker phrases occur in the visible text; in particular any page with
exactly one marker and no identity-provider URL marker is classified as
not-login. -/
theorem C3_login_detection (dom : PageSnapshot) :
    (looks_like_login_or_oauth dom =
      (substrB ("accounts.google.com") (pyLower dom.url)
        || substrB ("github.com/login") (pyLower dom.url)
        || decide (2 ≤ loginMarkerHits (pyLower dom.visible_text))))
    ∧ (loginMarkerHits (pyLower dom.visible_text) = 1 →
       substrB ("accounts.google.com") (pyLower dom.url) = false →
       substrB ("github.com/login") (pyLower dom.url) = false →
       looks_like_login_or_oauth dom = false) := by
  constructor
  · unfold looks_like_login_or_oauth
    cases h1 : substrB ("accounts.google.com") (pyLower dom.url) <;>
      cases h2 : substrB ("github.com/login") (pyLower dom.url) <;>
        simp [h1, h2]
  · intro hcount h1 h2
    unfold looks_like_login_or_oauth
    simp [h1, h2, hcount]

/-- A settings page mentioning "password" once: exactly one marker, no
identity-provider URL, classified as not-login. -/
def settingsDom : PageSnapshot :=
  { url := ("https://example.com/settings"),
    visible_text := ("Change your password here") }

theorem C3_login_detection_witness :
    looks_like_login_or_oauth settingsDom = false :=
  (C3_login_detection settingsDom).2 (by decide) (by decide) (by decide)

/-- C4: repository-success detection returns true exactly when the lowered
URL contains `github.com` but not `/new`, the lowered visible text does
not contain the creation-form banner, and the lowered task description
contains `create` together with one of `repo`, `repository`, `project`;
in particular it returns false for every snapshot still showing the
banner. -/
theorem C4_repo_success_detection (dom : PageSnapshot) (task_description : String) :
    (looks_like_github_repo_page dom task_description =
      (substrB ("github.com") (pyLower dom.url)
        && !(substrB ("/new") (pyLower dom.url))
        && !(substrB ("create a new repository") (pyLower dom.visible_text))
        && (substrB ("create") (pyLower task_description)
            && (substrB ("repo") (pyLower task_description)
                || substrB ("repository") (pyLower task_description)
                || substrB ("project") (pyLower task_description)))))
    ∧ (substrB ("create a new repository") (pyLower dom.visible_text) = true →
       looks_like_github_repo_page dom task_description = false) := by
  constructor
  · unfold looks_like_github_repo_page
    cases h1 : substrB ("github.com") (pyLower dom.url) <;>
      cases h2 : substrB ("/new") (pyLower dom.url) <;>
        cases h3 : substrB ("create a new repository") (pyLower dom.visible_text) <;>
          cases h4 : (substrB ("create") (pyLower task_description)
              && (substrB ("repo") (pyLower task_description)
                  || substrB ("repository") (pyLower task_description)
                  || substrB ("project") (pyLower task_description))) <;>
            simp [h1, h2, h3, h4]
  · intro h
    unfold looks_like_github_repo_page
    cases h1 : substrB ("github.com") (pyLower dom.url) <;>
      cases h2 : substrB ("/new") (pyLower dom.url) <;>
        simp [h, h1, h2]

/-- The GitHub new-repository creation form, still showing its banner. -/
def newRepoFormDom : PageSnapshot :=
  { url := ("https://github.com/new"),
    visible_text := ("Create a new repository") }

theorem C4_repo_success_detection_witness :
    looks_like_github_repo_page newRepoFormDom ("Create a repo named demo") = false :=
  (C4_repo_success_detection newRepoFormDom ("Create a repo named demo")).2 (by decide)

/-- C5 counterexample: a run in which every planner action is an unknown
no-op runs through all 15 budgeted iterations, finishes normally and
writes its journal — but the loop simply ends without ever assigning
`stopped_reason` or `final_url`, so the serialized metadata of this
completed run contains neither, refuting "the RunMetadata terminal fields
... are set ... including the run that ends because the step counter
exceeds the configured budget". -/
theorem C5_counterexample :
    (run_task_workflow ("t") ("s") envNoop).raised = false ∧
    (run_task_workflow ("t") ("s") envNoop).state.iters = 15 ∧
    (run_task_workflow ("t") ("s") envNoop).state.stopped_reason = none ∧
    (run_task_workflow ("t") ("s") envNoop).state.final_url = none := by
  decide

/-- C5 amended: for every run that finishes without an escaping
exception, `stopped_reason` and `final_url` are both set exactly when the
loop ended via a break (stuck-on-login, success detection, planner done,
or action error) — they are set at that single breaking step — while a
run that exhausts the step budget leaves both unset in its serialized
metadata. -/
theorem C5_amended_terminal_fields (task start_url : String) (env : Nat → StepInput)
    (h : (run_task_workflow task start_url env).raised = false) :
    (((run_task_workflow task start_url env).state.stopped_reason.isSome = true ∧
      (run_task_workflow task start_url env).state.final_url.isSome = true) ↔
     (run_task_workflow task start_url env).broke = true) :=
  (runFrom_frame task start_url env MAX_STEPS (init_state start_url) rfl rfl).2 h

/-- Concrete instantiation on the stuck-on-login run, which breaks and
reports both terminal fields. -/
theorem C5_amended_terminal_fields_witness :
    (((run_task_workflow ("t") ("s") envStuck).state.stopped_reason.isSome = true ∧
      (run_task_workflow ("t") ("s") envStuck).state.final_url.isSome = true) ↔
     (run_task_workflow ("t") ("s") envStuck).broke = true) :=
  C5_amended_terminal_fields ("t") ("s") envStuck (by decide)

/-- A payload carrying an unknown action type. -/
def scrollPayload : PlannerPayload := { action_type := some ("scroll") }

/-- A step input delivering that unknown action on a plain page. -/
def scrollInput : StepInput :=
  { dom := plainDom, planner := PlannerResult.output (some scrollPayload) }

/-- C6 counterexample: a parsed payload with the unknown `action_type`
value `"scroll"` is passed through unchanged by `decide_next_action` —
the delivered action type is not `done` — and the orchestrator step
that receives it continues the loop rather than ending the run via the
done path, refuting the claim that an unknown action_type value leads to a delivered
action with action_type equal to done. -/
theorem C6_counterexample :
    ¬ ((decide_next_action (some scrollPayload)).action_type = ("done")) ∧
    (runStep ("t") ("s") (init_state ("s")) scrollInput).2 = StepExit.cont := by
  decide

/-- C6 amended: when the raw planner output fails to parse as JSON, or
the parsed payload has no `action_type` key, the delivered action
has `action_type = "done"`; an unknown-but-present `action_type` value is
delivered unchanged (and the orchestrator then treats the step as a
recorded no-op and continues, cf. the no-op property). -/
theorem C6_amended_parse_fallback :
    (decide_next_action none).action_type = ("done") ∧
    ∀ p : PlannerPayload, p.action_type = none →
      (decide_next_action (some p)).action_type = ("done") := by
  constructor
  · rfl
  · intro p hp
    simp [decide_next_action, buildAction, hp]

/-- Concrete instantiation: a payload with no `action_type` key falls
back to `done`. -/
theorem C6_amended_parse_fallback_witness :
    (decide_next_action (some ({ } : PlannerPayload))).action_type = ("done") :=
  C6_amended_parse_fallback.2 { } rfl

/-- C7: in every run the manual-login pause (the blocking human
acknowledgment) is executed at most once, however often login pages are
seen afterwards; and once login has been handled, a later login detection
never continues the loop — whenever that iteration completes it ends the
run with reason `stuck_on_login`. -/
theorem C7_login_pause_at_most_once :
    (∀ (task start_url : String) (env : Nat → StepInput),
        countPause (run_task_workflow task start_url env).state.ops ≤ 1) ∧
    (∀ (task start_url : String) (st : RunState) (inp : StepInput),
        looks_like_login_or_oauth inp.dom = true → st.login_handled = true →
        (runStep task start_url st inp).2 ≠ StepExit.cont ∧
        ((runStep task start_url st inp).2 = StepExit.brk →
          (runStep task start_url st inp).1.stopped_reason = some ("stuck_on_login"))) := by
  constructor
  · intro task start_url env
    exact runFrom_pause task start_url env MAX_STEPS (init_state start_url)
      (by simp [init_state, countPause, isPauseOp, List.countP_cons, List.countP_nil])
  · intro task start_url st inp hlog hh
    obtain ⟨st1, e, hr⟩ : ∃ st1 e, runStep task start_url st inp = (st1, e) := ⟨_, _, rfl⟩
    rw [hr]
    exact runStep_stuck_cases hr hlog hh

/-- A run state with login already handled. -/
def stHandled : RunState := { init_state ("s") with login_handled := true }

/-- Concrete instantiation of both halves of the pause property. -/
theorem C7_login_pause_at_most_once_witness :
    countPause (run_task_workflow ("t") ("s") envStuck).state.ops ≤ 1 ∧
    (runStep ("t") ("s") stHandled (envStuck 1)).2 ≠ StepExit.cont :=
  ⟨C7_login_pause_at_most_once.1 ("t") ("s") envStuck,
   (C7_login_pause_at_most_once.2 ("t") ("s") stHandled (envStuck 1)
      (by decide) rfl).1⟩

/-- C10: when the planner delivers an action matching none of the four
executable branches (unknown action type, `click` with missing/empty
selector, or `type` with missing/empty text), the orchestrator invokes no
click, fill or navigation operation on the browser for that step — the
operations performed are exactly the optional before screenshot, the
fixed 600 ms settle wait, and the optional after screenshot — the step is
still recorded as one StepRecord, and the loop continues instead of
stopping or raising (even if action execution would have raised). -/
theorem C10_invalid_action_is_recorded_noop (task start_url : String) (st : RunState)
    (inp : StepInput) (parsed : Option PlannerPayload)
    (hlog : looks_like_login_or_oauth inp.dom = false)
    (hrepo : looks_like_github_repo_page inp.dom task = false)
    (hissue : looks_like_github_issue_page inp.dom task = false)
    (hpl : inp.planner = PlannerResult.output parsed)
    (hbad : isNoOpAction (decide_next_action parsed) = true)
    (hshot : inp.shotRaises = false)
    (hsettle : inp.settleRaises = false) :
    (runStep task start_url st inp).2 = StepExit.cont ∧
    (runStep task start_url st inp).1.steps.length = st.steps.length + 1 ∧
    (runStep task start_url st inp).1.ops = st.ops ++
      ((if (decide_next_action parsed).screenshot_before = true
        then [BrowserOp.shot (stepName (st.iters + 1) ++ ("_before.png"))] else [])
       ++ [BrowserOp.waitOp 600]
       ++ (if (decide_next_action parsed).screenshot_after = true
           then [BrowserOp.shot (stepName (st.iters + 1) ++ ("_after.png"))] else [])) := by
  simp only [isNoOpAction, Bool.and_eq_true, Bool.not_eq_true'] at hbad
  obtain ⟨⟨⟨hb1, hb2⟩, hb3⟩, hb4⟩ := hbad
  unfold runStep execPhase continuePath
  simp only [hlog, hrepo, hissue, hpl, hshot, hsettle, hb1, hb2, hb3, hb4,
    Bool.false_and, Bool.and_false]
  cases hsb : (decide_next_action parsed).screenshot_before <;>
    cases hsa : (decide_next_action parsed).screenshot_after <;>
      simp [hsb, hsa, List.append_assoc]

/-- The planner asks for a click but supplies an empty selector; the
attempted execution would raise if it ever ran. -/
def clickEmptyPayload : PlannerPayload :=
  { action_type := some ("click"), selector := some ("") }

/-- Step input delivering the empty-selector click on a plain page, with
`execRaises` set to show that no browser operation is even attempted. -/
def clickEmptyInput : StepInput :=
  { dom := plainDom, planner := PlannerResult.output (some clickEmptyPayload),
    execRaises := true }

/-- Concrete instantiation of the no-op step property at an
empty-selector click. -/
theorem C10_invalid_action_is_recorded_noop_witness :
    (runStep ("t") ("s") (init_state ("s")) clickEmptyInput).2 = StepExit.cont ∧
    (runStep ("t") ("s") (init_state ("s")) clickEmptyInput).1.steps.length =
      (init_state ("s")).steps.length + 1 ∧
    (runStep ("t") ("s") (init_state ("s")) clickEmptyInput).1.ops =
      (init_state ("s")).ops ++
      ((if (decide_next_action (some clickEmptyPayload)).screenshot_before = true
        then [BrowserOp.shot (stepName ((init_state ("s")).iters + 1) ++ ("_before.png"))]
        else [])
       ++ [BrowserOp.waitOp 600]
       ++ (if (decide_next_action (some clickEmptyPayload)).screenshot_after = true
           then [BrowserOp.shot (stepName ((init_state ("s")).iters + 1) ++ ("_after.png"))]
           else [])) :=
  C10_invalid_action_is_recorded_noop ("t") ("s") (init_state ("s")) clickEmptyInput
    (some clickEmptyPayload) (by decide) (by decide) (by decide) rfl (by decide) rfl rfl
